import Mathlib

/-!
Shallow embedding of the emporia CRUD/search service
(`src/api/emporia.py` together with the schemas of `src/models/emporia.py`).

Conventions of the embedding:

* timestamps are modelled as `Int`; each call the source makes to
  `datetime.now(UTC)` is a fresh clock reading passed to the handler as an
  explicit argument, and successive readings of the (monotone) wall clock are
  related by `≤`, never necessarily by `<`;
* the two float columns (`usage`, `percentage`) are only stored and compared,
  never computed with, so they are modelled as `Int`;
* the SQLAlchemy session is a list of persisted rows in storage order; a
  `db.commit()` either succeeds (`commitOk = true`) or raises, in which case
  the handler's `except` branch calls `db.rollback()` which restores the
  state from before the attempted mutation;
* FastAPI validates a request body against its Pydantic schema before the
  handler body runs: the `*_endpoint` wrappers model that step, while the
  inner handlers receive an already validated body.
-/

namespace EmporiaSpec

/-- A value stored in one column of a serialized row, preserving the native
type of the column (integer id, timestamp, string, numeric). -/
inductive Value where
  | int : Int → Value
  | nat : Nat → Value
  | str : String → Value
deriving DecidableEq

/-- One persisted row of the `emporia` table, with the column set of the
SQLAlchemy model `Emporia` (models/emporia.py lines 41-55). -/
structure EmporiaRecord where
  id : Nat
  instant : Int
  scale : String
  device_id : Int
  channel_num : String
  name : String
  usage : Int
  unit : String
  percentage : Int
  create_date : Int
  update_date : Int
deriving DecidableEq

/-- Embedding of `serialize_sqlalchemy_obj` (api/emporia.py lines 12-22): one
pair per column of `obj.__table__.columns`, in table order, no column hidden. -/
def serialize_sqlalchemy_obj (r : EmporiaRecord) : List (String × Value) :=
  [("id", Value.nat r.id),
   ("instant", Value.int r.instant),
   ("scale", Value.str r.scale),
   ("device_id", Value.int r.device_id),
   ("channel_num", Value.str r.channel_num),
   ("name", Value.str r.name),
   ("usage", Value.int r.usage),
   ("unit", Value.str r.unit),
   ("percentage", Value.int r.percentage),
   ("create_date", Value.int r.create_date),
   ("update_date", Value.int r.update_date)]

/-- Embedding of FastAPI's `HTTPException`: a status code and a detail
message. -/
structure HTTPError where
  status_code : Nat
  detail : String
deriving DecidableEq

/-- Detail string of the 404 raised by get/put/patch/delete when no row has
the requested id (api/emporia.py line 100 and its copies). -/
def notFoundDetail (id : Nat) : String :=
  "emporia with id " ++ toString id ++ " not found"

/-- The 404 error raised when no row has the requested id; its message names
both the resource (`emporia`) and the id. -/
def notFoundError (id : Nat) : HTTPError :=
  { status_code := 404, detail := notFoundDetail id }

/-- The 500 produced by a handler's generic `except Exception` branch when the
storage commit raises; the concrete exception text is opaque to the model. -/
def storageError : HTTPError :=
  { status_code := 500, detail := "Internal server error: storage failure" }

/-- The 422 FastAPI returns when a query parameter violates its declared
bounds (`Query(1, ge=1)`, `Query(10, ge=1, le=100)`). -/
def queryValidationError : HTTPError :=
  { status_code := 422, detail := "query parameter out of range" }

/-- The 422 FastAPI returns when the request body fails Pydantic validation
against the declared schema. -/
def bodyValidationError : HTTPError :=
  { status_code := 422, detail := "request body failed validation" }

/-- Raw JSON body of a create/replace/patch request, before Pydantic
validation: each key is either absent (`none`) or present with a value.
`create_date` and `update_date` are not fields of the `EmporiaCreate` schema,
so a client may send them but validation ignores them. -/
structure EmporiaBody where
  instant : Option Int
  scale : Option String
  device_id : Option Int
  channel_num : Option String
  name : Option String
  usage : Option Int
  unit : Option String
  percentage : Option Int
  create_date : Option Int
  update_date : Option Int
deriving DecidableEq

/-- The validated payload of the Pydantic schema `EmporiaCreate`
(models/emporia.py lines 94-101): all eight fields required, no defaults. -/
structure EmporiaCreate where
  instant : Int
  scale : String
  device_id : Int
  channel_num : String
  name : String
  usage : Int
  unit : String
  percentage : Int
deriving DecidableEq

/-- Which of the eight `EmporiaCreate` fields were explicitly present in the
request body — Pydantic's fields-set, what `model_dump` with exclusion of
unset fields keeps. -/
structure FieldMask where
  instant : Bool
  scale : Bool
  device_id : Bool
  channel_num : Bool
  name : Bool
  usage : Bool
  unit : Bool
  percentage : Bool
deriving DecidableEq

/-- The mask with every field marked set, i.e. `model_dump` without
exclusions. -/
def FieldMask.allSet : FieldMask :=
  { instant := true, scale := true, device_id := true, channel_num := true,
    name := true, usage := true, unit := true, percentage := true }

/-- A parsed `EmporiaCreate` instance: the validated values plus the set of
fields that were explicitly provided. -/
structure ParsedCreate where
  value : EmporiaCreate
  fieldsSet : FieldMask
deriving DecidableEq

/-- Pydantic validation of a body against `EmporiaCreate`: succeeds exactly
when all eight required fields are present (there are no defaults), in which
case every field is in the fields-set; extra keys such as `create_date` or
`update_date` are ignored. -/
def parseEmporiaCreate (b : EmporiaBody) : Option ParsedCreate :=
  match b.instant, b.scale, b.device_id, b.channel_num,
        b.name, b.usage, b.unit, b.percentage with
  | some i, some sc, some d, some ch, some nm, some us, some un, some pc =>
      some { value := { instant := i, scale := sc, device_id := d,
                        channel_num := ch, name := nm, usage := us,
                        unit := un, percentage := pc },
             fieldsSet := FieldMask.allSet }
  | _, _, _, _, _, _, _, _ => none

/-- Apply to a stored row exactly the fields marked set in the mask — the
`for key, value in data.items(): setattr(record, key, value)` loop of the
update handlers. `id`, `create_date` and `update_date` are not keys of the
dump of an `EmporiaCreate`, so the loop never touches them. -/
def applyFields (r : EmporiaRecord) (m : FieldMask) (c : EmporiaCreate) :
    EmporiaRecord :=
  { r with
    instant := if m.instant then c.instant else r.instant,
    scale := if m.scale then c.scale else r.scale,
    device_id := if m.device_id then c.device_id else r.device_id,
    channel_num := if m.channel_num then c.channel_num else r.channel_num,
    name := if m.name then c.name else r.name,
    usage := if m.usage then c.usage else r.usage,
    unit := if m.unit then c.unit else r.unit,
    percentage := if m.percentage then c.percentage else r.percentage }

/-- Largest id present in the store (0 when empty). -/
def maxId (db : List EmporiaRecord) : Nat :=
  db.foldr (fun r m => max r.id m) 0

/-- The id the autoincrementing primary key assigns to the next inserted row:
strictly larger than every id in the store. -/
def nextId (db : List EmporiaRecord) : Nat :=
  maxId db + 1

/-- The row `Emporia(**data)` builds in `create_record`: the eight validated
body fields, the id the autoincrement column assigns, and the two clock
readings `t1` (line 68, `create_date`) and `t2` (line 69, `update_date`). -/
def freshRecord (p : ParsedCreate) (t1 t2 : Int) (db : List EmporiaRecord) :
    EmporiaRecord :=
  { id := nextId db, instant := p.value.instant, scale := p.value.scale,
    device_id := p.value.device_id, channel_num := p.value.channel_num,
    name := p.value.name, usage := p.value.usage, unit := p.value.unit,
    percentage := p.value.percentage, create_date := t1, update_date := t2 }

/-- Embedding of `create_record` (api/emporia.py lines 50-79) after body
validation. The validated body has all eight fields set, so the dump that
seeds `Emporia(**data)` supplies all of them. On commit failure the handler
rolls back and raises a 500. -/
def create_record (p : ParsedCreate) (t1 t2 : Int) (commitOk : Bool)
    (db : List EmporiaRecord) :
    Except HTTPError (List (String × Value)) × List EmporiaRecord :=
  if commitOk then
    (Except.ok (serialize_sqlalchemy_obj (freshRecord p t1 t2 db)),
     db ++ [freshRecord p t1 t2 db])
  else
    (Except.error storageError, db)

/-- The POST endpoint: FastAPI validates the body against `EmporiaCreate`
before `create_record` runs. -/
def create_endpoint (b : EmporiaBody) (t1 t2 : Int) (commitOk : Bool)
    (db : List EmporiaRecord) :
    Except HTTPError (List (String × Value)) × List EmporiaRecord :=
  match parseEmporiaCreate b with
  | none => (Except.error bodyValidationError, db)
  | some p => create_record p t1 t2 commitOk db

/-- Embedding of `get_emporia_by_id` (api/emporia.py lines 82-105):
`filter(Emporia.id == id).first()` is the first row of the store whose id
matches; absence raises the 404. -/
def get_emporia_by_id (id : Nat) (db : List EmporiaRecord) :
    Except HTTPError (List (String × Value)) :=
  match db.find? (fun r => r.id == id) with
  | none => Except.error (notFoundError id)
  | some r => Except.ok (serialize_sqlalchemy_obj r)

/-- Replace the first row satisfying the predicate by `v`, leaving every
other row in place — the effect on the session of mutating the row returned
by `.first()` and committing. -/
def replaceFirst (p : EmporiaRecord → Bool) (v : EmporiaRecord) :
    List EmporiaRecord → List EmporiaRecord
  | [] => []
  | r :: rest => if p r then v :: rest else r :: replaceFirst p v rest

/-- Remove the first row satisfying the predicate — the effect of
`db.delete(record)` on the row returned by `.first()`. -/
def eraseFirst (p : EmporiaRecord → Bool) :
    List EmporiaRecord → List EmporiaRecord
  | [] => []
  | r :: rest => if p r then rest else r :: eraseFirst p rest

/-- A stored row after an update handler has run its setattr loop with the
given mask and then executed `record.update_date = datetime.now(UTC)` with
clock reading `t`. -/
def updatedRow (r : EmporiaRecord) (m : FieldMask) (c : EmporiaCreate)
    (t : Int) : EmporiaRecord :=
  { applyFields r m c with update_date := t }

/-- Embedding of `update_emporia_full` (api/emporia.py lines 108-145) after
body validation: the dump is taken without excluding unset fields, so all
eight `EmporiaCreate` fields are written, then `update_date` is set to the
fresh clock reading `t`. Commit failure rolls back. -/
def update_emporia_full (id : Nat) (p : ParsedCreate) (t : Int)
    (commitOk : Bool) (db : List EmporiaRecord) :
    Except HTTPError (List (String × Value)) × List EmporiaRecord :=
  match db.find? (fun r => r.id == id) with
  | none => (Except.error (notFoundError id), db)
  | some record =>
      if commitOk then
        (Except.ok (serialize_sqlalchemy_obj
           (updatedRow record FieldMask.allSet p.value t)),
         replaceFirst (fun r => r.id == id)
           (updatedRow record FieldMask.allSet p.value t) db)
      else
        (Except.error storageError, db)

/-- Embedding of the PATCH handler (api/emporia.py lines 148-185) after body
validation: identical to the full update except that the dump excludes unset
fields, so only the fields of the parsed body's fields-set are written;
`update_date` is then set to the fresh clock reading `t`. -/
def update_emporia_patch (id : Nat) (p : ParsedCreate) (t : Int)
    (commitOk : Bool) (db : List EmporiaRecord) :
    Except HTTPError (List (String × Value)) × List EmporiaRecord :=
  match db.find? (fun r => r.id == id) with
  | none => (Except.error (notFoundError id), db)
  | some record =>
      if commitOk then
        (Except.ok (serialize_sqlalchemy_obj
           (updatedRow record p.fieldsSet p.value t)),
         replaceFirst (fun r => r.id == id)
           (updatedRow record p.fieldsSet p.value t) db)
      else
        (Except.error storageError, db)

/-- The PUT endpoint: body validation against `EmporiaCreate`, then the full
update handler. -/
def put_endpoint (id : Nat) (b : EmporiaBody) (t : Int) (commitOk : Bool)
    (db : List EmporiaRecord) :
    Except HTTPError (List (String × Value)) × List EmporiaRecord :=
  match parseEmporiaCreate b with
  | none => (Except.error bodyValidationError, db)
  | some p => update_emporia_full id p t commitOk db

/-- The PATCH endpoint: the body is declared with the same all-required
`EmporiaCreate` schema as PUT (api/emporia.py line 151), so validation—not
the handler—decides which bodies are accepted. -/
def patch_endpoint (id : Nat) (b : EmporiaBody) (t : Int) (commitOk : Bool)
    (db : List EmporiaRecord) :
    Except HTTPError (List (String × Value)) × List EmporiaRecord :=
  match parseEmporiaCreate b with
  | none => (Except.error bodyValidationError, db)
  | some p => update_emporia_patch id p t commitOk db

/-- Detail string of the delete confirmation (api/emporia.py line 210). -/
def deleteDetail (id : Nat) : String :=
  "emporia with id " ++ toString id ++ " deleted successfully"

/-- Embedding of `delete_emporia` (api/emporia.py lines 188-215): 404 when no
row matches, otherwise the first matching row is removed and a confirmation
echoing the id is returned. Commit failure rolls back. -/
def delete_emporia (id : Nat) (commitOk : Bool) (db : List EmporiaRecord) :
    Except HTTPError (List (String × Value)) × List EmporiaRecord :=
  match db.find? (fun r => r.id == id) with
  | none => (Except.error (notFoundError id), db)
  | some _ =>
      if commitOk then
        (Except.ok [("detail", Value.str (deleteDetail id))],
         eraseFirst (fun r => r.id == id) db)
      else
        (Except.error storageError, db)

/-- Embedding of `list_emporia` (api/emporia.py lines 25-47): FastAPI rejects
`page < 1`, `limit < 1` and `limit > 100`; otherwise the handler returns the
slice `offset = (page - 1) * limit`, length at most `limit`, of the store in
storage order, serialized. An empty slice is an empty list, not an error. -/
def list_emporia (page limit : Int) (db : List EmporiaRecord) :
    Except HTTPError (List (List (String × Value))) :=
  if page < 1 then Except.error queryValidationError
  else if limit < 1 then Except.error queryValidationError
  else if 100 < limit then Except.error queryValidationError
  else
    Except.ok (((db.drop ((page - 1) * limit).toNat).take limit.toNat).map
      serialize_sqlalchemy_obj)

/-- Raw body of a search request against the `EmporiaSearch` schema
(models/emporia.py lines 105-133): every field optional, plus the two
filter-only bounds `start_date` and `end_date`. A field is `none` when the
client did not supply a usable value for it. -/
structure EmporiaSearchBody where
  instant : Option Int
  start_date : Option Int
  end_date : Option Int
  scale : Option String
  device_id : Option Int
  channel_num : Option String
  name : Option String
  usage : Option Int
  unit : Option String
  percentage : Option Int
deriving DecidableEq

/-- A constraint contributed by an optional body field: trivially true when
the field is absent, the field's check when present. -/
def optCheck {α : Type} (o : Option α) (f : α → Bool) : Bool :=
  match o with
  | some v => f v
  | none => true

/-- The conjunctive predicate the search handler builds: `instant` bounded
below by `start_date` and above by `end_date` when present, and one equality
conjunct per other field present in the body; all conjuncts ANDed. -/
def searchMatch (s : EmporiaSearchBody) (r : EmporiaRecord) : Bool :=
  optCheck s.start_date (fun d => decide (d ≤ r.instant)) &&
  optCheck s.end_date (fun d => decide (r.instant ≤ d)) &&
  optCheck s.instant (fun v => r.instant == v) &&
  optCheck s.scale (fun v => r.scale == v) &&
  optCheck s.device_id (fun v => r.device_id == v) &&
  optCheck s.channel_num (fun v => r.channel_num == v) &&
  optCheck s.name (fun v => r.name == v) &&
  optCheck s.usage (fun v => r.usage == v) &&
  optCheck s.unit (fun v => r.unit == v) &&
  optCheck s.percentage (fun v => r.percentage == v)

/-- Boolean comparison ordering rows by their `instant` column ascending. -/
def instantLe (a b : EmporiaRecord) : Bool :=
  decide (a.instant ≤ b.instant)

/-- The two Python classes that appear as query entities in the source:
`Emporia`, the SQLAlchemy mapped model, and `EmporiaSearch`, the plain
Pydantic request schema. -/
inductive QueryEntity where
  | emporiaModel
  | emporiaSearchSchema
deriving DecidableEq

/-- Whether `db.query` accepts the class: only a SQLAlchemy mapped class is a
query entity; passing the Pydantic schema raises an `ArgumentError`. -/
def isMappedEntity : QueryEntity → Bool
  | QueryEntity.emporiaModel => true
  | QueryEntity.emporiaSearchSchema => false

/-- Whether class-attribute access on the class yields a filterable column.
On the mapped model every column name is a `Column` attribute; on a Pydantic
model class the declared fields are not class attributes (access raises
`AttributeError`, and `hasattr` is false). -/
def hasColumnAttr : QueryEntity → Bool
  | QueryEntity.emporiaModel => true
  | QueryEntity.emporiaSearchSchema => false

/-- The 500 produced when the search handler evaluates
`EmporiaSearch.instant >= start_date` (api/emporia.py lines 235, 237): the
Pydantic class has no such class attribute, the `AttributeError` lands in the
generic `except` branch. -/
def attributeError500 : HTTPError :=
  { status_code := 500, detail := "Internal server error: AttributeError" }

/-- The 500 produced when the search handler evaluates
`db.query(EmporiaSearch)` (api/emporia.py line 245): the Pydantic schema is
not a mapped entity, the `ArgumentError` lands in the generic `except`
branch. -/
def unmappedEntityError500 : HTTPError :=
  { status_code := 500, detail := "Internal server error: not a mapped entity" }

/-- Embedding of `search_emporia` (api/emporia.py lines 218-252) as written:
every class reference in the handler names `EmporiaSearch` — the Pydantic
request schema — rather than the mapped model `Emporia`. When a date bound is
present, line 235 or 237 accesses `EmporiaSearch.instant` and raises
`AttributeError`; otherwise the per-field loop adds no filter (its `hasattr`
guard is false for every field) and line 245 `db.query(EmporiaSearch)` raises
because the schema is not a mapped entity. Either way the generic `except`
branch turns the exception into a 500, so no request reaches the query; the
final branch below is the filter-and-sort the handler builds toward but never
executes. -/
def search_emporia (s : EmporiaSearchBody) (db : List EmporiaRecord) :
    Except HTTPError (List (List (String × Value))) :=
  if (s.start_date.isSome || s.end_date.isSome) &&
      !(hasColumnAttr QueryEntity.emporiaSearchSchema) then
    Except.error attributeError500
  else if !(isMappedEntity QueryEntity.emporiaSearchSchema) then
    Except.error unmappedEntityError500
  else
    Except.ok (((db.filter (searchMatch s)).mergeSort instantLe).map
      serialize_sqlalchemy_obj)

/-- The search semantics the handler's filter construction expresses and the
documentation describes, i.e. the handler with its class references resolved
to the mapped model `Emporia`: filter the store by the conjunctive predicate
and return the matches ordered ascending by `instant`. -/
def search_emporia_intended (s : EmporiaSearchBody) (db : List EmporiaRecord) :
    Except HTTPError (List (List (String × Value))) :=
  Except.ok (((db.filter (searchMatch s)).mergeSort instantLe).map
    serialize_sqlalchemy_obj)

/-! Concrete fixtures used to instantiate theorems with hypotheses. -/

/-- A stored row as it might exist before an update. -/
def r0 : EmporiaRecord :=
  { id := 1, instant := 150, scale := "1D", device_id := 7,
    channel_num := "1,2,3", name := "Electricity Monitor", usage := 10,
    unit := "KilowattHours", percentage := 50, create_date := 0,
    update_date := 0 }

/-- A validated full body, every field set. -/
def pW : ParsedCreate :=
  { value := { instant := 200, scale := "1M", device_id := 99,
               channel_num := "4", name := "Heat Pump", usage := 20,
               unit := "KWH", percentage := 60 },
    fieldsSet := FieldMask.allSet }

/-- A raw request body carrying all eight `EmporiaCreate` fields. -/
def fullBodyW : EmporiaBody :=
  { instant := some 200, scale := some "1M", device_id := some 99,
    channel_num := some "4", name := some "Heat Pump", usage := some 20,
    unit := some "KWH", percentage := some 60,
    create_date := none, update_date := none }

/-- A raw request body carrying only `device_id`. -/
def onlyDeviceBody : EmporiaBody :=
  { instant := none, scale := none, device_id := some 99,
    channel_num := none, name := none, usage := none,
    unit := none, percentage := none,
    create_date := none, update_date := none }

/-! Helper lemmas about the store. -/

/-- Every id in the store is at most the running maximum. -/
theorem mem_id_le_maxId (db : List EmporiaRecord) :
    ∀ r ∈ db, r.id ≤ maxId db := by
  induction db with
  | nil => intro r h; cases h
  | cons a rest ih =>
      intro r h
      rcases List.mem_cons.mp h with h | h
      · subst h; exact le_max_left _ _
      · exact le_trans (ih r h) (le_max_right _ _)

/-- The autoincrement id is fresh: strictly above every stored id. -/
theorem mem_id_lt_nextId (db : List EmporiaRecord) :
    ∀ r ∈ db, r.id < nextId db := by
  intro r h
  exact Nat.lt_succ_of_le (mem_id_le_maxId db r h)

/-- After erasing the first row with the given id from a store with distinct
ids, no row with that id remains. -/
theorem eraseFirst_id_not_mem (id : Nat) (db : List EmporiaRecord)
    (hnd : (db.map (fun r => r.id)).Nodup) :
    ∀ x ∈ eraseFirst (fun r => r.id == id) db, x.id ≠ id := by
  induction db with
  | nil => intro x hx; cases hx
  | cons a rest ih =>
      have hna : a.id ∉ rest.map (fun r => r.id) :=
        (List.nodup_cons.mp hnd).1
      have hndr : (rest.map (fun r => r.id)).Nodup :=
        (List.nodup_cons.mp hnd).2
      intro x hx
      by_cases ha : a.id = id
      · rw [eraseFirst, if_pos (by simpa using ha)] at hx
        intro hxid
        exact hna (by rw [ha, ← hxid] at hna ⊢; exact List.mem_map_of_mem _ hx)
      · rw [eraseFirst, if_neg (by simpa using ha)] at hx
        rcases List.mem_cons.mp hx with h | h
        · subst h; exact ha
        · exact ih hndr x h

/-- A parsed `EmporiaCreate` always has its whole field set marked present:
the schema has no optional field, so validation only succeeds on full
bodies. -/
theorem parseEmporiaCreate_fieldsSet (b : EmporiaBody) (p : ParsedCreate)
    (hp : parseEmporiaCreate b = some p) :
    p.fieldsSet = FieldMask.allSet := by
  unfold parseEmporiaCreate at hp
  split at hp
  · cases hp; rfl
  · cases hp

/-! Claim theorems. -/

/-- C6: the list operation accepts page ≥ 1 and 1 ≤ limit ≤ 100, computes
offset = (page - 1) * limit and returns the store slice of length at most
limit starting there; page = 0 and limit = 101 are rejected as invalid
input; an empty store yields an empty list, never an error. -/
theorem list_emporia_pagination (page limit : Int) (db : List EmporiaRecord)
    (h1 : 1 ≤ page) (h2 : 1 ≤ limit) (h3 : limit ≤ 100) :
    list_emporia page limit db
      = Except.ok (((db.drop ((page - 1) * limit).toNat).take limit.toNat).map
          serialize_sqlalchemy_obj)
    ∧ ((db.drop ((page - 1) * limit).toNat).take limit.toNat).length
        ≤ limit.toNat
    ∧ list_emporia 0 limit db = Except.error queryValidationError
    ∧ list_emporia page 101 db = Except.error queryValidationError
    ∧ list_emporia page limit [] = Except.ok [] := by
  refine ⟨?_, ?_, ?_, ?_, ?_⟩
  · unfold list_emporia
    rw [if_neg (by omega), if_neg (by omega), if_neg (by omega)]
  · rw [List.length_take]
    exact min_le_left _ _
  · unfold list_emporia
    rw [if_pos (by omega)]
  · unfold list_emporia
    rw [if_neg (by omega), if_neg (by omega), if_pos (by omega)]
  · unfold list_emporia
    rw [if_neg (by omega), if_neg (by omega), if_neg (by omega)]
    simp

/-- Witness for C6 at page = 1, limit = 10 over a one-row store. -/
theorem list_emporia_pagination_witness :
    list_emporia 1 10 [r0]
      = Except.ok ((([r0].drop ((((1 : Int)) - 1) * 10).toNat).take
          ((10 : Int)).toNat).map serialize_sqlalchemy_obj)
    ∧ (([r0].drop ((((1 : Int)) - 1) * 10).toNat).take ((10 : Int)).toNat).length
        ≤ ((10 : Int)).toNat
    ∧ list_emporia 0 10 [r0] = Except.error queryValidationError
    ∧ list_emporia 1 101 [r0] = Except.error queryValidationError
    ∧ list_emporia 1 10 [] = Except.ok [] :=
  list_emporia_pagination 1 10 [r0] (by norm_num) (by norm_num) (by norm_num)

/-- C7: for an id with no stored row, get, replace, patch and delete each
fail with the 404 NotFound error whose message names the id and the resource
and leave the store unchanged; and over a store with distinct ids, deleting
an existing id succeeds the first time and returns the same 404 the second
time. -/
theorem notfound_and_delete_twice (idA idB : Nat) (db : List EmporiaRecord)
    (p : ParsedCreate) (t : Int)
    (hA : ∀ r ∈ db, r.id ≠ idA)
    (hnd : (db.map (fun r => r.id)).Nodup)
    (hB : ∃ r ∈ db, r.id = idB) :
    get_emporia_by_id idA db = Except.error (notFoundError idA)
    ∧ update_emporia_full idA p t true db
        = (Except.error (notFoundError idA), db)
    ∧ update_emporia_patch idA p t true db
        = (Except.error (notFoundError idA), db)
    ∧ delete_emporia idA true db = (Except.error (notFoundError idA), db)
    ∧ (notFoundError idA).status_code = 404
    ∧ (notFoundError idA).detail
        = "emporia with id " ++ toString idA ++ " not found"
    ∧ (delete_emporia idB true db).1
        = Except.ok [("detail", Value.str (deleteDetail idB))]
    ∧ (delete_emporia idB true (delete_emporia idB true db).2).1
        = Except.error (notFoundError idB) := by
  have hfindA : db.find? (fun r => r.id == idA) = none := by
    rw [List.find?_eq_none]
    intro x hx
    simpa using hA x hx
  have hsome : (db.find? (fun r => r.id == idB)).isSome := by
    rw [List.find?_isSome]
    rcases hB with ⟨r, hr, hid⟩
    exact ⟨r, hr, by simpa using hid⟩
  rcases Option.isSome_iff_exists.mp hsome with ⟨rB, hfindB⟩
  have hdel1 : delete_emporia idB true db
      = (Except.ok [("detail", Value.str (deleteDetail idB))],
         eraseFirst (fun r => r.id == idB) db) := by
    unfold delete_emporia
    rw [hfindB]
    rfl
  have hfind2 : (eraseFirst (fun r => r.id == idB) db).find?
      (fun r => r.id == idB) = none := by
    rw [List.find?_eq_none]
    intro x hx
    simpa using eraseFirst_id_not_mem idB db hnd x hx
  refine ⟨?_, ?_, ?_, ?_, rfl, rfl, ?_, ?_⟩
  · unfold get_emporia_by_id
    rw [hfindA]
  · unfold update_emporia_full
    rw [hfindA]
  · unfold update_emporia_patch
    rw [hfindA]
  · unfold delete_emporia
    rw [hfindA]
  · rw [hdel1]
  · rw [hdel1]
    unfold delete_emporia
    rw [hfind2]

/-- Witness for C7: id 2 is absent and id 1 present in a one-row store. -/
theorem notfound_and_delete_twice_witness :
    get_emporia_by_id 2 [r0] = Except.error (notFoundError 2)
    ∧ update_emporia_full 2 pW 5 true [r0]
        = (Except.error (notFoundError 2), [r0])
    ∧ update_emporia_patch 2 pW 5 true [r0]
        = (Except.error (notFoundError 2), [r0])
    ∧ delete_emporia 2 true [r0] = (Except.error (notFoundError 2), [r0])
    ∧ (notFoundError 2).status_code = 404
    ∧ (notFoundError 2).detail
        = "emporia with id " ++ toString 2 ++ " not found"
    ∧ (delete_emporia 1 true [r0]).1
        = Except.ok [("detail", Value.str (deleteDetail 1))]
    ∧ (delete_emporia 1 true (delete_emporia 1 true [r0]).2).1
        = Except.error (notFoundError 1) :=
  notfound_and_delete_twice 2 1 [r0] pW 5 (by decide) (by decide) (by decide)

/-- C8: when the storage commit fails, each write handler (create, replace,
patch, delete) rolls the attempted mutation back so the store is unchanged,
and the failure surfaces as a 500 storage error instead of being
swallowed. -/
theorem write_failure_rollback (id : Nat) (p : ParsedCreate) (t1 t2 t : Int)
    (db : List EmporiaRecord) (r : EmporiaRecord)
    (hfind : db.find? (fun x => x.id == id) = some r) :
    create_record p t1 t2 false db = (Except.error storageError, db)
    ∧ update_emporia_full id p t false db = (Except.error storageError, db)
    ∧ update_emporia_patch id p t false db = (Except.error storageError, db)
    ∧ delete_emporia id false db = (Except.error storageError, db)
    ∧ storageError.status_code = 500 := by
  refine ⟨rfl, ?_, ?_, ?_, rfl⟩
  · unfold update_emporia_full
    rw [hfind]
    rfl
  · unfold update_emporia_patch
    rw [hfind]
    rfl
  · unfold delete_emporia
    rw [hfind]
    rfl

/-- Witness for C8 over a one-row store whose single id is 1. -/
theorem write_failure_rollback_witness :
    create_record pW 3 4 false [r0] = (Except.error storageError, [r0])
    ∧ update_emporia_full 1 pW 5 false [r0]
        = (Except.error storageError, [r0])
    ∧ update_emporia_patch 1 pW 5 false [r0]
        = (Except.error storageError, [r0])
    ∧ delete_emporia 1 false [r0] = (Except.error storageError, [r0])
    ∧ storageError.status_code = 500 :=
  write_failure_rollback 1 pW 3 4 5 [r0] r0 (by decide)

/-- C9: serialization lists every column of the table with its native typed
value, and a create followed by a get of the id the create assigned returns
exactly the create response. -/
theorem create_get_roundtrip (p : ParsedCreate) (t1 t2 : Int)
    (db : List EmporiaRecord) :
    get_emporia_by_id (nextId db) (create_record p t1 t2 true db).2
      = (create_record p t1 t2 true db).1
    ∧ ∀ r : EmporiaRecord, (serialize_sqlalchemy_obj r).map Prod.fst
        = ["id", "instant", "scale", "device_id", "channel_num", "name",
           "usage", "unit", "percentage", "create_date", "update_date"] := by
  constructor
  · have hnone : db.find? (fun r => r.id == nextId db) = none := by
      rw [List.find?_eq_none]
      intro x hx
      have := mem_id_lt_nextId db x hx
      simp only [beq_iff_eq]
      omega
    have hsingle : List.find? (fun r => r.id == nextId db)
        [freshRecord p t1 t2 db] = some (freshRecord p t1 t2 db) := by
      simp [List.find?, freshRecord]
    show get_emporia_by_id (nextId db) (db ++ [freshRecord p t1 t2 db])
      = Except.ok (serialize_sqlalchemy_obj (freshRecord p t1 t2 db))
    unfold get_emporia_by_id
    rw [List.find?_append, hnone, hsingle]
    rfl
  · intro r
    rfl

/-- C10: the PATCH and PUT endpoints validate the body against the same
all-fields-required `EmporiaCreate` schema, so every body that passes
validation has all eight fields set, and on every store, id, clock reading
and commit outcome the two endpoints produce identical responses and
identical stores. -/
theorem patch_equals_replace_on_valid_body (b : EmporiaBody)
    (p : ParsedCreate) (hp : parseEmporiaCreate b = some p) :
    p.fieldsSet = FieldMask.allSet
    ∧ ∀ (id : Nat) (t : Int) (ck : Bool) (db : List EmporiaRecord),
        patch_endpoint id b t ck db = put_endpoint id b t ck db := by
  have hm := parseEmporiaCreate_fieldsSet b p hp
  refine ⟨hm, ?_⟩
  intro id t ck db
  unfold patch_endpoint put_endpoint
  rw [hp]
  show update_emporia_patch id p t ck db = update_emporia_full id p t ck db
  unfold update_emporia_patch update_emporia_full
  rw [hm]

/-- Witness for C10 at a full body over a one-row store. -/
theorem patch_equals_replace_on_valid_body_witness :
    pW.fieldsSet = FieldMask.allSet
    ∧ patch_endpoint 1 fullBodyW 5 true [r0]
        = put_endpoint 1 fullBodyW 5 true [r0] := by
  have h := patch_equals_replace_on_valid_body fullBodyW pW rfl
  exact ⟨h.1, h.2 1 5 true [r0]⟩

/-- C2 counterexample: a patch whose body contains only `device_id` is
rejected by the all-fields-required schema with a validation error and the
store is returned unchanged: the stored row keeps `device_id = 7` and
`update_date = 0`, so the one supplied field is not applied and
`update_date` is not reset, contrary to the claim. -/
theorem patch_subset_body_rejected :
    patch_endpoint 1 onlyDeviceBody 5 true [r0]
      = (Except.error bodyValidationError, [r0])
    ∧ onlyDeviceBody.device_id = some 99
    ∧ r0.device_id = 7
    ∧ r0.update_date = 0 :=
  ⟨rfl, rfl, rfl, rfl⟩

/-- C2 (amended): the PATCH body is validated against the all-fields-required
`EmporiaCreate` schema, so a body with only a subset of the fields is
rejected with a validation error and the stored record is left unchanged;
for a body that passes validation — which therefore has all eight fields —
exactly the fields present in the request (all eight) are applied, the
columns the request cannot name (`id`, `create_date`) keep their stored
values, and the server resets `update_date` to the fresh clock reading. -/
theorem patch_validated_body_frame (id : Nat) (t : Int)
    (db : List EmporiaRecord) (r : EmporiaRecord)
    (hfind : db.find? (fun x => x.id == id) = some r) :
    (∀ b, parseEmporiaCreate b = none →
        patch_endpoint id b t true db
          = (Except.error bodyValidationError, db))
    ∧ (∀ b p, parseEmporiaCreate b = some p →
        patch_endpoint id b t true db
          = (Except.ok (serialize_sqlalchemy_obj
               (updatedRow r p.fieldsSet p.value t)),
             replaceFirst (fun x => x.id == id)
               (updatedRow r p.fieldsSet p.value t) db)
        ∧ (updatedRow r p.fieldsSet p.value t).id = r.id
        ∧ (updatedRow r p.fieldsSet p.value t).create_date = r.create_date
        ∧ (updatedRow r p.fieldsSet p.value t).update_date = t
        ∧ (updatedRow r p.fieldsSet p.value t).instant = p.value.instant
        ∧ (updatedRow r p.fieldsSet p.value t).scale = p.value.scale
        ∧ (updatedRow r p.fieldsSet p.value t).device_id = p.value.device_id
        ∧ (updatedRow r p.fieldsSet p.value t).channel_num
            = p.value.channel_num
        ∧ (updatedRow r p.fieldsSet p.value t).name = p.value.name
        ∧ (updatedRow r p.fieldsSet p.value t).usage = p.value.usage
        ∧ (updatedRow r p.fieldsSet p.value t).unit = p.value.unit
        ∧ (updatedRow r p.fieldsSet p.value t).percentage
            = p.value.percentage) := by
  constructor
  · intro b hb
    unfold patch_endpoint
    rw [hb]
  · intro b p hp
    have hm := parseEmporiaCreate_fieldsSet b p hp
    have h1 : patch_endpoint id b t true db
        = (Except.ok (serialize_sqlalchemy_obj
             (updatedRow r p.fieldsSet p.value t)),
           replaceFirst (fun x => x.id == id)
             (updatedRow r p.fieldsSet p.value t) db) := by
      unfold patch_endpoint
      rw [hp]
      show update_emporia_patch id p t true db = _
      unfold update_emporia_patch
      rw [hfind]
      rfl
    refine ⟨h1, rfl, rfl, rfl, ?_, ?_, ?_, ?_, ?_, ?_, ?_, ?_⟩ <;>
      (rw [hm]; rfl)

/-- Witness for C2: the amended statement applied over a one-row store, to
the subset body (rejected) and to a full body (applied with frame). -/
theorem patch_validated_body_frame_witness :
    patch_endpoint 1 onlyDeviceBody 7 true [r0]
      = (Except.error bodyValidationError, [r0])
    ∧ (patch_endpoint 1 fullBodyW 7 true [r0]
        = (Except.ok (serialize_sqlalchemy_obj
             (updatedRow r0 pW.fieldsSet pW.value 7)),
           replaceFirst (fun x => x.id == 1)
             (updatedRow r0 pW.fieldsSet pW.value 7) [r0])
      ∧ (updatedRow r0 pW.fieldsSet pW.value 7).id = r0.id
      ∧ (updatedRow r0 pW.fieldsSet pW.value 7).create_date = r0.create_date
      ∧ (updatedRow r0 pW.fieldsSet pW.value 7).update_date = 7
      ∧ (updatedRow r0 pW.fieldsSet pW.value 7).instant = pW.value.instant
      ∧ (updatedRow r0 pW.fieldsSet pW.value 7).scale = pW.value.scale
      ∧ (updatedRow r0 pW.fieldsSet pW.value 7).device_id
          = pW.value.device_id
      ∧ (updatedRow r0 pW.fieldsSet pW.value 7).channel_num
          = pW.value.channel_num
      ∧ (updatedRow r0 pW.fieldsSet pW.value 7).name = pW.value.name
      ∧ (updatedRow r0 pW.fieldsSet pW.value 7).usage = pW.value.usage
      ∧ (updatedRow r0 pW.fieldsSet pW.value 7).unit = pW.value.unit
      ∧ (updatedRow r0 pW.fieldsSet pW.value 7).percentage
          = pW.value.percentage) := by
  have h := patch_validated_body_frame 1 7 [r0] r0 (by decide)
  exact ⟨h.1 onlyDeviceBody rfl, h.2 fullBodyW pW rfl⟩

/-- A stored row whose last update happened at clock reading 5. -/
def rPrev : EmporiaRecord :=
  { r0 with update_date := 5 }

/-- A stored row that satisfies the search criteria used below. -/
def rSearch : EmporiaRecord :=
  { id := 2, instant := 150, scale := "1D", device_id := 138435,
    channel_num := "1,2,3", name := "Electricity Monitor", usage := 38,
    unit := "KilowattHours", percentage := 100, create_date := 0,
    update_date := 0 }

/-- Search body with a `device_id` equality and a `start_date` lower bound,
the example of the specification. -/
def deviceRangeSearchBody : EmporiaSearchBody :=
  { instant := none, start_date := some 100, end_date := none, scale := none,
    device_id := some 138435, channel_num := none, name := none,
    usage := none, unit := none, percentage := none }

/-- Search body with no field set. -/
def emptySearchBody : EmporiaSearchBody :=
  { instant := none, start_date := none, end_date := none, scale := none,
    device_id := none, channel_num := none, name := none, usage := none,
    unit := none, percentage := none }

/-- C4 counterexample: the create handler takes two separate clock readings
for the two date columns (api/emporia.py lines 68 and 69); when the clock
advances between the calls — the readings carry microsecond resolution — the
stored and returned record has create_date = 0 and update_date = 1, so the
two dates are not equal, refuting the claimed equality. -/
theorem create_dates_can_differ :
    create_endpoint fullBodyW 0 1 true []
      = (Except.ok (serialize_sqlalchemy_obj (freshRecord pW 0 1 [])),
         [freshRecord pW 0 1 []])
    ∧ (freshRecord pW 0 1 []).create_date = 0
    ∧ (freshRecord pW 0 1 []).update_date = 1
    ∧ (0 : Int) ≠ 1 :=
  ⟨rfl, rfl, rfl, by decide⟩

/-- C4 (amended): for every valid create the server assigns create_date from
the first clock reading at acceptance and update_date from the second,
ignoring any client-supplied value for those two fields; because the wall
clock is monotone, create_date ≤ update_date in the returned record, with
equality exactly when the two readings coincide — the code does not
guarantee equality. -/
theorem create_sets_dates_from_clock (b : EmporiaBody) (p : ParsedCreate)
    (t1 t2 : Int) (db : List EmporiaRecord)
    (hp : parseEmporiaCreate b = some p) (ht : t1 ≤ t2) :
    (∀ cd ud : Option Int,
        create_endpoint { b with create_date := cd, update_date := ud }
            t1 t2 true db
          = create_endpoint b t1 t2 true db)
    ∧ create_endpoint b t1 t2 true db
        = (Except.ok (serialize_sqlalchemy_obj (freshRecord p t1 t2 db)),
           db ++ [freshRecord p t1 t2 db])
    ∧ (freshRecord p t1 t2 db).create_date = t1
    ∧ (freshRecord p t1 t2 db).update_date = t2
    ∧ (freshRecord p t1 t2 db).create_date
        ≤ (freshRecord p t1 t2 db).update_date := by
  have hparse : ∀ cd ud : Option Int,
      parseEmporiaCreate { b with create_date := cd, update_date := ud }
        = parseEmporiaCreate b := by
    intro cd ud
    cases b
    rfl
  refine ⟨?_, ?_, rfl, rfl, ht⟩
  · intro cd ud
    unfold create_endpoint
    rw [hparse cd ud]
  · unfold create_endpoint
    rw [hp]
    rfl

/-- Witness for C4 (amended) at clock readings 3 and 4 over the empty
store, with a client trying to smuggle both dates as 9. -/
theorem create_sets_dates_from_clock_witness :
    create_endpoint
        { fullBodyW with create_date := some 9, update_date := some 9 }
        3 4 true []
      = create_endpoint fullBodyW 3 4 true []
    ∧ create_endpoint fullBodyW 3 4 true []
        = (Except.ok (serialize_sqlalchemy_obj (freshRecord pW 3 4 [])),
           [] ++ [freshRecord pW 3 4 []])
    ∧ (freshRecord pW 3 4 []).create_date = 3
    ∧ (freshRecord pW 3 4 []).update_date = 4
    ∧ (freshRecord pW 3 4 []).create_date
        ≤ (freshRecord pW 3 4 []).update_date := by
  have h := create_sets_dates_from_clock fullBodyW pW 3 4 [] rfl (by norm_num)
  exact ⟨h.1 (some 9) (some 9), h.2.1, h.2.2.1, h.2.2.2.1, h.2.2.2.2⟩

/-- C5 counterexample: replacing a row whose stored update_date equals the
current clock reading — nothing forces the wall clock to have advanced since
the previous write — leaves update_date at 5, which is not strictly greater
than its prior value, refuting the claimed strict increase. -/
theorem replace_update_date_not_strict :
    put_endpoint 1 fullBodyW 5 true [rPrev]
      = (Except.ok (serialize_sqlalchemy_obj
           (updatedRow rPrev FieldMask.allSet pW.value 5)),
         [updatedRow rPrev FieldMask.allSet pW.value 5])
    ∧ rPrev.update_date = 5
    ∧ (updatedRow rPrev FieldMask.allSet pW.value 5).update_date = 5
    ∧ ¬ ((5 : Int) > 5) :=
  ⟨rfl, rfl, rfl, by decide⟩

/-- C5 (amended): a successful replace writes all eight Write-shape fields
of the stored row to exactly the validated body values and sets update_date
to the fresh clock reading; under a monotone wall clock that reading is at
least — though not necessarily strictly above — the prior update_date. -/
theorem replace_writes_body_and_restamps (id : Nat) (b : EmporiaBody)
    (p : ParsedCreate) (t : Int) (db : List EmporiaRecord)
    (r : EmporiaRecord)
    (hp : parseEmporiaCreate b = some p)
    (hfind : db.find? (fun x => x.id == id) = some r)
    (ht : r.update_date ≤ t) :
    put_endpoint id b t true db
      = (Except.ok (serialize_sqlalchemy_obj
           (updatedRow r FieldMask.allSet p.value t)),
         replaceFirst (fun x => x.id == id)
           (updatedRow r FieldMask.allSet p.value t) db)
    ∧ (updatedRow r FieldMask.allSet p.value t).instant = p.value.instant
    ∧ (updatedRow r FieldMask.allSet p.value t).scale = p.value.scale
    ∧ (updatedRow r FieldMask.allSet p.value t).device_id
        = p.value.device_id
    ∧ (updatedRow r FieldMask.allSet p.value t).channel_num
        = p.value.channel_num
    ∧ (updatedRow r FieldMask.allSet p.value t).name = p.value.name
    ∧ (updatedRow r FieldMask.allSet p.value t).usage = p.value.usage
    ∧ (updatedRow r FieldMask.allSet p.value t).unit = p.value.unit
    ∧ (updatedRow r FieldMask.allSet p.value t).percentage
        = p.value.percentage
    ∧ (updatedRow r FieldMask.allSet p.value t).update_date = t
    ∧ r.update_date ≤ (updatedRow r FieldMask.allSet p.value t).update_date
    := by
  refine ⟨?_, rfl, rfl, rfl, rfl, rfl, rfl, rfl, rfl, rfl, ht⟩
  unfold put_endpoint
  rw [hp]
  show update_emporia_full id p t true db = _
  unfold update_emporia_full
  rw [hfind]
  rfl

/-- Witness for C5 (amended) over the one-row store at clock reading 6. -/
theorem replace_writes_body_and_restamps_witness :
    put_endpoint 1 fullBodyW 6 true [rPrev]
      = (Except.ok (serialize_sqlalchemy_obj
           (updatedRow rPrev FieldMask.allSet pW.value 6)),
         replaceFirst (fun x => x.id == 1)
           (updatedRow rPrev FieldMask.allSet pW.value 6) [rPrev])
    ∧ (updatedRow rPrev FieldMask.allSet pW.value 6).instant
        = pW.value.instant
    ∧ (updatedRow rPrev FieldMask.allSet pW.value 6).scale = pW.value.scale
    ∧ (updatedRow rPrev FieldMask.allSet pW.value 6).device_id
        = pW.value.device_id
    ∧ (updatedRow rPrev FieldMask.allSet pW.value 6).channel_num
        = pW.value.channel_num
    ∧ (updatedRow rPrev FieldMask.allSet pW.value 6).name = pW.value.name
    ∧ (updatedRow rPrev FieldMask.allSet pW.value 6).usage = pW.value.usage
    ∧ (updatedRow rPrev FieldMask.allSet pW.value 6).unit = pW.value.unit
    ∧ (updatedRow rPrev FieldMask.allSet pW.value 6).percentage
        = pW.value.percentage
    ∧ (updatedRow rPrev FieldMask.allSet pW.value 6).update_date = 6
    ∧ rPrev.update_date
        ≤ (updatedRow rPrev FieldMask.allSet pW.value 6).update_date :=
  replace_writes_body_and_restamps 1 fullBodyW pW 6 [rPrev] rPrev rfl
    (by decide) (by decide)

/-- C1 (code bug): the store holds a row satisfying the request's
conjunctive predicate (device_id equal, instant within the start_date
bound), and the intended conjunctive filter ordered by instant would return
exactly that row; but the handler references `EmporiaSearch` — the Pydantic
request schema, not the mapped model `Emporia` — so line 235 raises on the
class-attribute access and every such request ends as a 500 instead. -/
theorem search_device_range_crashes :
    search_emporia deviceRangeSearchBody [rSearch]
      = Except.error attributeError500
    ∧ searchMatch deviceRangeSearchBody rSearch = true
    ∧ search_emporia_intended deviceRangeSearchBody [rSearch]
        = Except.ok [serialize_sqlalchemy_obj rSearch]
    ∧ attributeError500.status_code = 500 := by
  refine ⟨rfl, by decide, ?_, rfl⟩
  unfold search_emporia_intended
  rw [show List.filter (searchMatch deviceRangeSearchBody) [rSearch]
        = [rSearch] from by decide,
      List.mergeSort_singleton]
  rfl

/-- C3 (code bug): with an empty body no date bound is present, so the
handler reaches `db.query(EmporiaSearch)` at line 245, which raises because
the Pydantic schema is not a mapped entity; a nonempty store therefore
produces a 500 instead of the claimed full listing ordered by instant,
which is what the intended query over the mapped model returns. -/
theorem search_empty_body_crashes :
    search_emporia emptySearchBody [rSearch]
      = Except.error unmappedEntityError500
    ∧ searchMatch emptySearchBody rSearch = true
    ∧ search_emporia_intended emptySearchBody [rSearch]
        = Except.ok [serialize_sqlalchemy_obj rSearch]
    ∧ ([rSearch] : List EmporiaRecord) ≠ []
    ∧ unmappedEntityError500.status_code = 500 := by
  refine ⟨rfl, by decide, ?_, by decide, rfl⟩
  unfold search_emporia_intended
  rw [show List.filter (searchMatch emptySearchBody) [rSearch]
        = [rSearch] from by decide,
      List.mergeSort_singleton]
  rfl

/-- An optional constraint holds exactly when the check passes for the value
the field carries, if any. -/
theorem optCheck_eq_true {α : Type} (o : Option α) (f : α → Bool) :
    optCheck o f = true ↔ ∀ v, o = some v → f v = true := by
  cases o <;> simp [optCheck]

/-- Supporting fact for the search semantics the handler builds toward: the
intended query filters the store by the AND of every supplied constraint and
returns the matches as a permutation of the filtered store sorted ascending
by instant. -/
theorem search_intended_conjunctive_sorted (s : EmporiaSearchBody)
    (db : List EmporiaRecord) :
    (∀ r, r ∈ db.filter (searchMatch s) ↔ r ∈ db
      ∧ (∀ d, s.start_date = some d → d ≤ r.instant)
      ∧ (∀ d, s.end_date = some d → r.instant ≤ d)
      ∧ (∀ v, s.instant = some v → r.instant = v)
      ∧ (∀ v, s.scale = some v → r.scale = v)
      ∧ (∀ v, s.device_id = some v → r.device_id = v)
      ∧ (∀ v, s.channel_num = some v → r.channel_num = v)
      ∧ (∀ v, s.name = some v → r.name = v)
      ∧ (∀ v, s.usage = some v → r.usage = v)
      ∧ (∀ v, s.unit = some v → r.unit = v)
      ∧ (∀ v, s.percentage = some v → r.percentage = v))
    ∧ ((db.filter (searchMatch s)).mergeSort instantLe).Perm
        (db.filter (searchMatch s))
    ∧ List.Pairwise (fun a b => a.instant ≤ b.instant)
        ((db.filter (searchMatch s)).mergeSort instantLe)
    ∧ search_emporia_intended s db
        = Except.ok (((db.filter (searchMatch s)).mergeSort instantLe).map
            serialize_sqlalchemy_obj) := by
  have htrans : ∀ a b c : EmporiaRecord, instantLe a b = true →
      instantLe b c = true → instantLe a c = true := by
    intro a b c hab hbc
    simp only [instantLe, decide_eq_true_eq] at hab hbc ⊢
    exact le_trans hab hbc
  have htotal : ∀ a b : EmporiaRecord,
      (instantLe a b || instantLe b a) = true := by
    intro a b
    simp only [instantLe, Bool.or_eq_true, decide_eq_true_eq]
    exact le_total a.instant b.instant
  refine ⟨?_, List.mergeSort_perm _ _, ?_, rfl⟩
  · intro r
    rw [List.mem_filter]
    unfold searchMatch
    simp only [Bool.and_eq_true, optCheck_eq_true, decide_eq_true_eq,
      beq_iff_eq, and_assoc]
  · exact (List.sorted_mergeSort htrans htotal
      (db.filter (searchMatch s))).imp
      (fun h => by simpa [instantLe] using h)

end EmporiaSpec
